import Mathlib

/-!
Verification of the woolie-shopper shopping-list engine.

Shallow embedding of the relevant Python sources:
  * `src/smart_shopping_list.py`  (SmartShoppingListGenerator)
  * `src/meal_plan_agent.py`      (ShoppingListOptimizer, ShoppingListOptimizerNative)
  * `src/flask_app.py`            (apply_preferences)
  * `src/shopping_list_matcher.py` (ShoppingListMatcher.match_shopping_list)

Python strings are modelled as lists of characters (`Str`), dictionaries with
a fixed field set as structures, dictionaries used as ordered maps as
association lists (Python dicts preserve insertion order), and `None`-able /
possibly-absent fields as `Option`.  Numeric quantities are modelled as exact
rationals; the float formatting `f"{x:.1f}"` is modelled by decimal
round-half-even to one digit, which agrees with CPython on every value whose
binary representation error does not cross a rounding boundary (all values
appearing in the claims are exact).
-/

/-- Python strings as lists of characters. -/
abbrev Str := List Char

/-- Conversion from a Lean string literal. -/
def str (s : String) : Str := s.data

/-- Python `str.lower()` (per-character lowering). -/
def lowerS (s : Str) : Str := s.map Char.toLower

/-- Python `str.strip()`: drop whitespace from both ends. -/
def strip (s : Str) : Str :=
  ((s.dropWhile Char.isWhitespace).reverse.dropWhile Char.isWhitespace).reverse

/-- Python `str.split()` with no argument: split on whitespace runs,
dropping empty pieces. -/
def splitWs (s : Str) : List Str :=
  (s.foldr
    (fun c acc =>
      if c.isWhitespace then [] :: acc
      else
        match acc with
        | [] => [[c]]
        | w :: ws => (c :: w) :: ws)
    []).filter (fun w => !w.isEmpty)

/-- Python `' '.join(words)`. -/
def joinSpace (ws : List Str) : Str := List.intercalate [' '] ws

/-- Python `needle in hay` on strings (substring containment). -/
def containsSub : Str → Str → Bool
  | [], needle => needle.isEmpty
  | c :: t, needle => needle.isPrefixOf (c :: t) || containsSub t needle

/-- `name.lower().strip()` — the normalization used by the repair pass. -/
def lowerStrip (s : Str) : Str := strip (lowerS s)

/-- `' '.join(name.lower().strip().split())` — the normalization used by
`_combine_duplicates` (lower, trim, collapse internal whitespace). -/
def normName (s : Str) : Str := joinSpace (splitWs (strip (lowerS s)))

/-- Decimal digits of `n` (mirrors Python's `str` on a nonnegative int). -/
def natStr (n : Nat) : Str := Nat.toDigits 10 n

/-- Digits to number, `digitsToNat ['2','0','2'] = 202`. -/
def digitsToNat (ds : Str) : Nat :=
  ds.foldl (fun n c => 10 * n + (c.toNat - '0'.toNat)) 0

/-- Model of `re.search(r'(\d+\.?\d*)', s)`: the first maximal run of digits,
optionally followed by a dot and further digits.  Returns the integer and
fractional digit runs. -/
def findNum : Str → Option (Str × Str)
  | [] => none
  | c :: t =>
    if c.isDigit then
      let d1 := (c :: t).takeWhile Char.isDigit
      match (c :: t).dropWhile Char.isDigit with
      | '.' :: r2 => some (d1, r2.takeWhile Char.isDigit)
      | _ => some (d1, [])
    else findNum t

/-- A nonnegative decimal number `(n, e)` denoting `n / 10 ^ e`.  Quantities
are decimal-digit strings, so this represents their exact values with
kernel-computable `Nat` arithmetic (rationals via `Nat.gcd` do not reduce in
the kernel); `fracVal` gives the denoted rational. -/
abbrev Frac := Nat × Nat

/-- The rational value denoted by a `Frac`. -/
def fracVal (f : Frac) : ℚ := (f.1 : ℚ) / (10 : ℚ) ^ f.2

/-- Exact addition of denoted values (no normalization needed). -/
def fracAdd (a b : Frac) : Frac :=
  (a.1 * 10 ^ b.2 + b.1 * 10 ^ a.2, a.2 + b.2)

/-- The decimal zero. -/
def fracZero : Frac := (0, 0)

/-- `float(match.group(1))` for a successful `findNum` match. -/
def numVal (p : Str × Str) : Frac :=
  (digitsToNat p.1 * 10 ^ p.2.length + digitsToNat p.2, p.2.length)

/-- Quantity-string parse: number extracted by the regex, if any. -/
def parseQty (s : Str) : Option Frac := (findNum s).map numVal

/-- Model of `f"{x:.1f}".rstrip('0').rstrip('.')` for nonnegative `x`:
round `x * 10` to the nearest integer (ties to even, as Python's float
formatting does in decimal terms), then print one decimal digit, dropped
again when it is zero. -/
def fmt1 (q : Frac) : Str :=
  let N := q.1 * 10
  let D := 10 ^ q.2
  let fl := N / D
  let t :=
    if 2 * (N % D) < D then fl
    else if D < 2 * (N % D) then fl + 1
    else if fl % 2 = 0 then fl else fl + 1
  let ip := natStr (t / 10)
  let fd := t % 10
  if fd = 0 then ip else ip ++ '.' :: natStr fd

/-- Strict lexicographic comparison by code point (Python `<` on strings). -/
def lexLt : Str → Str → Bool
  | [], [] => false
  | [], _ :: _ => true
  | _ :: _, [] => false
  | a :: as, b :: bs =>
    if a.toNat < b.toNat then true
    else if b.toNat < a.toNat then false
    else lexLt as bs

/-- Stable insertion of `a` into `l`: `a` goes after every element it is not
strictly below (so later-arriving equal keys keep their relative order). -/
def insStable {α : Type} (lt : α → α → Bool) (a : α) : List α → List α
  | [] => [a]
  | b :: t => if lt a b then a :: b :: t else b :: insStable lt a t

/-- Stable sort (model of Python `list.sort(key=...)`). -/
def sortStable {α : Type} (lt : α → α → Bool) (l : List α) : List α :=
  l.foldl (fun acc a => insStable lt a acc) []

/-!
## Embedding of `src/smart_shopping_list.py` (`SmartShoppingListGenerator`)

Ingredient dicts are modelled as `Item`.  The code reads the name via
`item.get('name', item.get('ingredient_name', ''))`; we model the resolved
name as a single field.  `quantity`, `unit` and `notes` may be absent
(`Option`), matching the `.get(..., default)` accesses.
-/

structure Item where
  name : Str
  quantity : Option Str := none
  unit : Option Str := none
  notes : Option Str := none
deriving DecidableEq, Repr

/-- A display row of `_categorize_items` (`{'item','quantity','unit','notes'}`). -/
structure DisplayItem where
  item : Str
  quantity : Str
  unit : Str
  notes : Str
deriving DecidableEq, Repr

/-- A substitution record as read by `_apply_substitutions`
(`sub.get('original_ingredient','')`, `sub.get('replacement','')`). -/
structure SubRule where
  original_ingredient : Str
  replacement : Str
deriving DecidableEq, Repr

/-- A staple record (`name` and `quantity` are accessed unconditionally on the
paths below; `unit` via `.get('unit','')`; `in_stock` via
`.get('in_stock', False)`). -/
structure Staple where
  name : Str
  quantity : Str
  unit : Option Str := none
  in_stock : Bool := false
deriving DecidableEq, Repr

namespace SmartShoppingListGenerator

/-- `self.category_map`, in the dict's insertion order. -/
def category_map : List (Str × List Str) :=
  ([ ("Fresh Produce",
      ["lettuce", "spinach", "kale", "arugula", "salad", "greens",
       "tomato", "cucumber", "carrot", "celery", "onion", "garlic", "ginger",
       "potato", "sweet potato", "pumpkin", "squash", "zucchini", "eggplant",
       "capsicum", "pepper", "chili", "jalapeno",
       "broccoli", "cauliflower", "cabbage", "brussels sprout",
       "apple", "banana", "orange", "lemon", "lime", "avocado",
       "strawberry", "strawberries", "blueberry", "blueberries", "raspberry",
       "raspberries",
       "grape", "mango", "pineapple", "berry", "berries",
       "melon", "watermelon", "peach", "pear", "plum", "cherry", "cherries",
       "mushroom", "corn", "peas", "bean", "beans", "asparagus", "beetroot",
       "parsley", "cilantro", "coriander", "basil", "mint", "dill", "thyme",
       "rosemary",
       "oregano", "sage", "tarragon", "chives",
       "produce", "vegetable", "fruit", "herb", "fresh", "zest"]),
     ("Dairy & Eggs",
      ["milk", "cream", "yogurt", "yoghurt", "cheese", "butter", "egg",
       "sour cream", "cottage cheese", "ricotta", "mozzarella", "parmesan",
       "cheddar", "feta", "brie", "cream cheese", "whipped cream"]),
     ("Meat & Seafood",
      ["chicken", "beef", "pork", "lamb", "turkey", "duck",
       "bacon", "ham", "sausage", "salami", "prosciutto",
       "fish", "salmon", "tuna", "cod", "prawns", "shrimp", "seafood",
       "mince", "steak", "chop", "roast", "fillet", "breast", "thigh", "wing",
       "meat", "protein"]),
     ("Pantry Staples",
      ["flour", "sugar", "salt", "pepper", "oil", "vinegar",
       "rice", "pasta", "noodle", "macaroni", "couscous", "quinoa",
       "sauce", "paste", "stock", "broth", "bouillon",
       "spice", "seasoning", "cumin", "paprika", "turmeric", "curry",
       "cinnamon", "nutmeg", "vanilla", "extract",
       "honey", "syrup", "jam", "peanut butter", "tahini",
       "canned", "tin", "chickpea", "lentil", "kidney bean", "black bean",
       "coconut milk", "condensed milk", "evaporated milk", "almond milk",
       "baking powder", "baking soda", "yeast", "cornstarch", "cornflour",
       "breadcrumb", "panko", "chia seed", "chia", "flax", "sesame",
       "clove", "cloves", "mustard", "chili powder", "garlic powder",
       "onion powder",
       "italian herb", "dried herb", "chili flakes", "stevia"]),
     ("Bakery",
      ["bread", "roll", "bun", "bagel", "croissant", "muffin",
       "tortilla", "wrap", "pita", "naan", "flatbread",
       "cake", "pastry", "cookie", "biscuit"]),
     ("Frozen",
      ["frozen", "ice cream", "sorbet", "gelato",
       "frozen vegetables", "frozen fruit", "frozen meal"]),
     ("Beverages",
      ["water", "juice", "soda", "soft drink", "tea", "coffee",
       "wine", "beer", "spirits", "alcohol", "drink", "beverage"]),
     ("Snacks",
      ["chip", "crisp", "cracker", "popcorn", "pretzel",
       "chocolate", "candy", "lolly", "snack", "nut", "almond", "cashew"])
   ] : List (String × List String)).map
    (fun p => (p.1.data, p.2.map String.data))

/-- First category of the table whose keyword set has a substring match. -/
def firstCat : List (Str × List Str) → Str → Option Str
  | [], _ => none
  | (c, kws) :: t, n =>
    if kws.any (fun kw => containsSub n kw) then some c else firstCat t n

/-- `SmartShoppingListGenerator._get_category`. -/
def _get_category (item_name : Str) : Str :=
  (firstCat category_map (lowerS item_name)).getD (str "Other")

/-- Quantity of one item as `_combine_duplicates` parses it:
`re.search(r'(\d+\.?\d*)', str(item.get('quantity', '1')))`. -/
def qtyOf (it : Item) : Option Frac := parseQty (it.quantity.getD (str "1"))

/-- `total_qty`: the running float sum of the parsed group quantities
(parse failures contribute nothing; they force the fallback anyway). -/
def totalOf (items : List Item) : Frac :=
  (items.map qtyOf).foldl (fun acc v => fracAdd acc (v.getD fracZero)) fracZero

/-- One step of group-key collection: record a first-seen normalized name. -/
def gkStep (ks : List Str) (it : Item) : List Str :=
  let k := normName it.name
  if ks.any (fun j => decide (j = k)) then ks else ks ++ [k]

/-- Group keys in first-seen order (Python dict key order of the
`defaultdict` built by `_combine_duplicates`). -/
def groupKeys (ingredients : List Item) : List Str :=
  ingredients.foldl gkStep []

/-- The `for idx, item in enumerate(items, 1)` fallback: one copied entry per
line, with `notes` overwritten by `'From recipe {idx}'`. -/
def perLineNotes : Nat → List Item → List Item
  | _, [] => []
  | i, it :: t =>
    { it with notes := some (str "From recipe " ++ natStr (i + 1)) } ::
      perLineNotes (i + 1) t

/-- Body of the `for name, items in groups.items()` loop of
`_combine_duplicates`. -/
def combGroup (name : Str) (items : List Item) : List Item :=
  if items.length = 1 then items
  else
    let unit := (items.head?.elim [] (fun it => it.unit.getD []))
    let vals := items.map qtyOf
    let total := totalOf items
    if vals.all Option.isSome ∧ 0 < total.1 then
      [{ name := name,
         quantity := some (fmt1 total),
         unit := some unit,
         notes := some (str "Combined from " ++ natStr items.length
                          ++ str " recipes") }]
    else
      perLineNotes 0 items

/-- `SmartShoppingListGenerator._combine_duplicates`. -/
def _combine_duplicates (ingredients : List Item) : List Item :=
  (groupKeys ingredients).flatMap
    (fun k => combGroup k
      (ingredients.filter (fun it => decide (normName it.name = k))))

/-- Dict upsert (`sub_map[original] = replacement`). -/
def mapSet : List (Str × Str) → Str → Str → List (Str × Str)
  | [], k, v => [(k, v)]
  | (k', v') :: t, k, v =>
    if k' = k then (k, v) :: t else (k', v') :: mapSet t k v

/-- Dict lookup (`name in sub_map` / `sub_map[name]`). -/
def mapGet (m : List (Str × Str)) (k : Str) : Option Str :=
  (m.find? (fun p => decide (p.1 = k))).map (fun p => p.2)

/-- The `sub_map` built by `_apply_substitutions`. -/
def buildSubMap (substitutions : List SubRule) : List (Str × Str) :=
  substitutions.foldl
    (fun m sub =>
      let original := lowerS sub.original_ingredient
      if original ≠ [] ∧ sub.replacement ≠ [] then
        mapSet m original sub.replacement
      else m)
    []

/-- `SmartShoppingListGenerator._apply_substitutions`.  Note the exact dict
lookup `if name in sub_map` on the lower-cased name. -/
def _apply_substitutions (ingredients : List Item)
    (substitutions : List SubRule) : List Item :=
  if substitutions.isEmpty then ingredients
  else
    let sub_map := buildSubMap substitutions
    ingredients.map (fun item =>
      let name := lowerS item.name
      match mapGet sub_map name with
      | some repl =>
        { item with
          name := repl,
          notes := some (item.notes.getD [] ++ str " (Substituted from "
                           ++ name ++ str ")") }
      | none => item)

/-- Loop body of `_apply_organic_preferences` for one item, given the
lower-cased `organic_set`. -/
def orgStep (organic_set : List Str) (item : Item) : Item :=
  let name := item.name
  let name_lower := lowerS name
  let should_be_organic :=
    organic_set.any (fun pref => containsSub name_lower pref)
  if should_be_organic ∧ ¬ containsSub name_lower (str "organic") then
    { item with
      name := str "organic " ++ name,
      notes := some (item.notes.getD [] ++ str " 🌱") }
  else item

/-- `SmartShoppingListGenerator._apply_organic_preferences`. -/
def _apply_organic_preferences (ingredients : List Item)
    (organic_prefs : List Str) : List Item :=
  if organic_prefs.isEmpty then ingredients
  else ingredients.map (orgStep (organic_prefs.map lowerS))

/-- Ordered-dict append for `defaultdict(list)` usage. -/
def dictAppend : List (Str × List DisplayItem) → Str → DisplayItem →
    List (Str × List DisplayItem)
  | [], k, v => [(k, [v])]
  | (k', vs) :: t, k, v =>
    if k' = k then (k, vs ++ [v]) :: t else (k', vs) :: dictAppend t k v

/-- `category_order` of `_categorize_items` (display precedence; note this
differs from the `category_map` scan order: here Bakery precedes Pantry
Staples). -/
def category_order : List Str :=
  [str "Fresh Produce", str "Dairy & Eggs", str "Meat & Seafood",
   str "Bakery", str "Pantry Staples", str "Frozen", str "Beverages",
   str "Snacks", str "Other"]

/-- `SmartShoppingListGenerator._categorize_items`. -/
def _categorize_items (ingredients : List Item) :
    List (Str × List DisplayItem) :=
  let categories := ingredients.foldl
    (fun cats it =>
      dictAppend cats (_get_category (lowerS it.name))
        ⟨it.name, it.quantity.getD (str "1"), it.unit.getD [],
         it.notes.getD []⟩)
    []
  let sorted := categories.map
    (fun p => (p.1,
      sortStable (fun x y => lexLt (lowerS x.item) (lowerS y.item)) p.2))
  (category_order.filterMap
      (fun c => (sorted.find? (fun p => decide (p.1 = c))).map
        (fun p => (c, p.2))))
    ++ sorted.filter
        (fun p => ¬ category_order.any (fun c => decide (c = p.1)))

/-- `SmartShoppingListGenerator._generate_tips`.  (`organic_prefs` is unused
by the body, as in the source.) -/
def _generate_tips (ingredients : List Item) (organic_prefs : List Str) :
    List Str :=
  let _ := organic_prefs
  let tips1 :=
    if ingredients.any
        (fun it => decide (_get_category (lowerS it.name)
                             = str "Fresh Produce")) then
      [str "🥬 Start with fresh produce to ensure best quality"]
    else []
  let organic_count :=
    ingredients.countP (fun it => containsSub (lowerS it.name) (str "organic"))
  let tips2 :=
    if organic_count > 0 then
      [str "🌱 " ++ natStr organic_count
         ++ str " organic items marked with preference"]
    else []
  let tips3 :=
    if ingredients.length > 20 then
      [str "📝 " ++ natStr ingredients.length
         ++ str " items total - consider shopping online or using a list app"]
    else []
  tips1 ++ tips2 ++ tips3

/-- `SmartShoppingListGenerator._generate_cost_saving_tips`. -/
def _generate_cost_saving_tips (ingredients : List Item) : List Str :=
  let expensive_keywords :=
    [str "beef", str "lamb", str "salmon", str "prawns", str "shrimp",
     str "organic"]
  let expensive_items := ingredients.filter
    (fun it => expensive_keywords.any
      (fun kw => containsSub (lowerS it.name) kw))
  let tips1 :=
    if expensive_items.length > 3 then
      [str "💰 Consider buying meat/seafood on special or in bulk"]
    else []
  let pantry_count := ingredients.countP
    (fun it => decide (_get_category (lowerS it.name) = str "Pantry Staples"))
  let tips3 :=
    if pantry_count > 5 then [str "📦 Pantry staples often cheaper in bulk"]
    else []
  tips1 ++ [str "🌿 Buy seasonal produce for better prices and quality"]
    ++ tips3

/-- Return value of `generate_optimized_list`. -/
structure GenResult where
  categories : List (Str × List DisplayItem)
  shopping_tips : List Str
  cost_saving_suggestions : List Str
  total_items : Nat
deriving DecidableEq, Repr

/-- `SmartShoppingListGenerator.generate_optimized_list` — the deterministic
pipeline. -/
def generate_optimized_list (raw_ingredients : List Item)
    (organic_preferences : List Str) (substitutions : List SubRule)
    (staples : List Staple) : GenResult :=
  let combined := _combine_duplicates raw_ingredients
  let combined := _apply_substitutions combined substitutions
  let combined := _apply_organic_preferences combined organic_preferences
  let combined := combined ++
    (staples.filter (fun s => s.in_stock = false)).map
      (fun s => ({ name := s.name, quantity := some s.quantity,
                   unit := some (s.unit.getD []),
                   notes := some (str "Staple item") } : Item))
  { categories := _categorize_items combined,
    shopping_tips := _generate_tips combined organic_preferences,
    cost_saving_suggestions := _generate_cost_saving_tips combined,
    total_items := combined.length }

end SmartShoppingListGenerator

/-!
## Embedding of `src/meal_plan_agent.py`

The classifier (`self.llm.invoke` / `self.client.messages.create` plus JSON
parsing) is the external call; its outcome is injected as an
`Except Unit AIResult` value: `.ok r` for a structurally valid parsed JSON
object, `.error ()` for any exception or JSON parse failure.  Organic
preferences and substitutions only flow into the prompt text, so they do not
appear in the post-processing below.
-/

/-- One entry of an AI `categories` value
(`{'item': ..., 'quantity': ..., 'notes': ...}`; a missing key reads as `''`). -/
structure AIItem where
  item : Str
  quantity : Str := []
  notes : Str := []
deriving DecidableEq, Repr

/-- The parsed classifier output / optimizer return value. -/
structure AIResult where
  categories : List (Str × List AIItem) := []
  shopping_tips : List Str := []
  cost_saving_suggestions : List Str := []
  total_items : Nat := 0
deriving DecidableEq, Repr

/-- All item names of a categorized result, lower-cased and stripped
(the `ai_items_lower` set; only membership is ever tested, so the
set-vs-list distinction is immaterial). -/
def aiItemsLower (categories : List (Str × List AIItem)) : List Str :=
  ((categories.map Prod.snd).flatten).map (fun it => lowerStrip it.item)

/-- The repair pass's fuzzy coverage test:
`name in ai_item or ai_item in name`. -/
def coveredB (name : Str) (ai_items : List Str) : Bool :=
  ai_items.any (fun ai => containsSub ai name || containsSub name ai)

/-- Coverage of a name against a categorized output. -/
def coveredInB (name : Str) (categories : List (Str × List AIItem)) : Bool :=
  coveredB name (aiItemsLower categories)

/-- A record appended to `missing_items` (for a raw ingredient the original
dict itself is appended; for a staple a fresh dict, in the LangChain
optimizer carrying `is_staple: True`). -/
structure MissingRec where
  name : Str
  quantity : Str
  unit : Str
  is_staple : Bool := false
deriving DecidableEq, Repr

/-- The `missing_items` list: raw ingredients whose normalized name is not
covered, then not-in-stock staples whose normalized name is not covered. -/
def missingFrom (ai_items : List Str) (raw_ingredients : List Item)
    (staples : List Staple) : List MissingRec :=
  (raw_ingredients.filter
      (fun ing => ¬ coveredB (lowerStrip ing.name) ai_items)).map
    (fun ing => ⟨ing.name, ing.quantity.getD [], ing.unit.getD [], false⟩)
  ++ ((staples.filter
        (fun s => s.in_stock = false
                    ∧ ¬ coveredB (lowerStrip s.name) ai_items)).map
      (fun s => ⟨s.name, s.quantity, s.unit.getD [], true⟩))

/-- `if 'Other' not in categories: categories['Other'] = []`. -/
def ensureOther (categories : List (Str × List AIItem)) :
    List (Str × List AIItem) :=
  if categories.any (fun p => decide (p.1 = str "Other")) then categories
  else categories ++ [(str "Other", [])]

/-- `categories['Other'].append(...)` for each converted missing item. -/
def appendOther (categories : List (Str × List AIItem)) (ds : List AIItem) :
    List (Str × List AIItem) :=
  match categories with
  | [] => []
  | (k, vs) :: t =>
    if k = str "Other" then (k, vs ++ ds) :: t
    else (k, vs) :: appendOther t ds

/-- `sum(len(items) for items in categories.values())`. -/
def totalLen (categories : List (Str × List AIItem)) : Nat :=
  ((categories.map Prod.snd).map List.length).sum

namespace ShoppingListOptimizer

/-- Display row of one missing item in
`_validate_and_fix_missing_items` (LangChain optimizer). -/
def displayOf (m : MissingRec) : AIItem :=
  { item := m.name,
    quantity := if m.quantity ≠ [] ∨ m.unit ≠ [] then
        strip (m.quantity ++ [' '] ++ m.unit)
      else [],
    notes := str "Added (missing from AI)"
               ++ (if m.is_staple then str " - Staple" else []) }

/-- `ShoppingListOptimizer._validate_and_fix_missing_items`. -/
def _validate_and_fix_missing_items (ai_result : AIResult)
    (raw_ingredients : List Item) (staples : List Staple) : AIResult :=
  let categories := ai_result.categories
  let ai_items_lower := aiItemsLower categories
  let missing_items := missingFrom ai_items_lower raw_ingredients staples
  if missing_items.isEmpty then ai_result
  else
    let categories' :=
      appendOther (ensureOther categories) (missing_items.map displayOf)
    { ai_result with
      categories := categories',
      total_items := totalLen categories' }

/-- `ShoppingListOptimizer._fallback_organization`. -/
def _fallback_organization (ingredients : List Item)
    (staples : List Staple) : AIResult :=
  let ingRows := ingredients.map (fun ing =>
    ({ item := ing.name,
       quantity := strip ((ing.quantity.getD []) ++ [' '] ++ (ing.unit.getD [])),
       notes := [] } : AIItem))
  let stRows := (staples.filter (fun s => s.in_stock = false)).map (fun s =>
    ({ item := s.name,
       quantity := strip (s.quantity ++ [' '] ++ (s.unit.getD [])),
       notes := str "Staple item" } : AIItem))
  { categories :=
      [(str "Fresh Produce", []), (str "Dairy & Eggs", []),
       (str "Meat & Protein", []), (str "Pantry Staples", []),
       (str "Other", ingRows ++ stRows)],
    shopping_tips :=
      [str "AI optimization unavailable - using basic categorization"],
    cost_saving_suggestions := [],
    total_items := ingredients.length
      + (staples.filter (fun s => s.in_stock = false)).length }

/-- `ShoppingListOptimizer.optimize_shopping_list` with the external
classifier outcome injected: a parsed result is validated/repaired, any
failure (exception or JSON parse error) yields `_fallback_organization`. -/
def optimize_shopping_list (classify : Except Unit AIResult)
    (raw_ingredients : List Item) (staples : List Staple) : AIResult :=
  match classify with
  | Except.ok result =>
    _validate_and_fix_missing_items result raw_ingredients staples
  | Except.error _ => _fallback_organization raw_ingredients staples

end ShoppingListOptimizer

namespace ShoppingListOptimizerNative

/-- Display row of one missing item in `_validate_items` (native optimizer:
no staple marker, quantity always joined-and-stripped). -/
def displayOf (m : MissingRec) : AIItem :=
  { item := m.name,
    quantity := strip (m.quantity ++ [' '] ++ m.unit),
    notes := str "Added (missing from AI)" }

/-- `ShoppingListOptimizerNative._validate_items`.  Unlike the LangChain
variant, `total_items` is recomputed unconditionally. -/
def _validate_items (result : AIResult) (raw_ingredients : List Item)
    (staples : List Staple) : AIResult :=
  let categories := result.categories
  let ai_items := aiItemsLower categories
  let missing := missingFrom ai_items raw_ingredients staples
  let categories' :=
    if missing.isEmpty then categories
    else appendOther (ensureOther categories) (missing.map displayOf)
  { result with
    categories := categories',
    total_items := totalLen categories' }

end ShoppingListOptimizerNative

/-!
## Embedding of `apply_preferences` from `src/flask_app.py`

The function reads substitutions and organic preferences from the
preferences store inside the loop; both reads are pure queries, modelled as
parameters.  `notes` here is a *list* of strings (created on demand).
-/

/-- An item as handled by the Flask helper. -/
structure FItem where
  name : Str
  notes : Option (List Str) := none
  original_name : Option Str := none
  search_term : Option Str := none
deriving DecidableEq, Repr

/-- A substitution row from `prefs_db.get_all_substitutions()`. -/
structure FSub where
  original : Str
  substitute : Str
deriving DecidableEq, Repr

/-- `apply_preferences` (flask_app.py).  Matching is substring containment of
the rule's lower-cased `original` in the item's original lower-cased name
(the name computed once, before any substitution). -/
def apply_preferences (ingredients : List FItem)
    (substitutions : List FSub) (organic_items : List Str) : List FItem :=
  ingredients.map (fun item =>
    let ingredient_name := lowerS item.name
    let afterSubs := substitutions.foldl
      (fun ic sub =>
        if containsSub ingredient_name (lowerS sub.original) then
          { ic with
            original_name := some ic.name,
            name := sub.substitute,
            notes := some ((ic.notes.getD [])
                             ++ [str "Substituted from " ++ sub.original]) }
        else ic)
      item
    organic_items.foldl
      (fun ic org =>
        if containsSub ingredient_name (lowerS org) then
          { ic with
            search_term := some (str "organic " ++ ic.name),
            notes := some ((ic.notes.getD []) ++ [str "Organic preferred"]) }
        else ic)
      afterSubs)

/-!
## Embedding of `ShoppingListMatcher.match_shopping_list`
(`src/shopping_list_matcher.py`)

`search_product` performs network I/O; its per-item outcome is injected as a
function returning `none` for "no match" (non-200, empty results, or any
exception) and `some hit` for a successful first-result match.  Only the
fields the arithmetic touches are modelled (`price`, which `search_product`
itself fills with `product.get('Price') or 0` — still possibly absent here
to model the defensive `matched.get('price') or 0`).
-/

/-- A shopping-list row handed to the matcher. -/
structure SListItem where
  name : Str
  quantity : Option Str := none
  unit : Option Str := none
  category : Option Str := none
deriving DecidableEq, Repr

/-- The matched-product fields used by the cost arithmetic. -/
structure SearchHit where
  price : Option ℚ := none
deriving DecidableEq, Repr

/-- The report assembled by `match_shopping_list`. -/
structure MatchReport where
  matched_items : List (SListItem × SearchHit)
  unmatched_items : List SListItem
  total_matched : Nat
  total_unmatched : Nat
  total_items : Nat
  estimated_cost : ℚ
  match_rate : ℚ
deriving DecidableEq, Repr

namespace ShoppingListMatcher

/-- `ShoppingListMatcher.match_shopping_list`. -/
def match_shopping_list (items : List SListItem)
    (search : SListItem → Option SearchHit) : MatchReport :=
  let matched := items.filterMap
    (fun it => (search it).map (fun hit => (it, hit)))
  let unmatched := items.filter (fun it => (search it).isNone)
  { matched_items := matched,
    unmatched_items := unmatched,
    total_matched := matched.length,
    total_unmatched := unmatched.length,
    total_items := items.length,
    estimated_cost := (matched.map (fun p => p.2.price.getD 0)).sum,
    match_rate :=
      if items.isEmpty then 0
      else (matched.length : ℚ) / (items.length : ℚ) * 100 }

end ShoppingListMatcher

/-!
## Scan-order formulations of the categorizer (for claim C6)
-/

namespace SmartShoppingListGenerator

/-- Keyword set of one category in `category_map`. -/
def keywordsFor (c : Str) : List Str :=
  ((category_map.find? (fun p => decide (p.1 = c))).map Prod.snd).getD []

/-- First category of `order` with a keyword substring match against the
lower-cased name, if any. -/
def scanFirst : List Str → Str → Option Str
  | [], _ => none
  | c :: t, item_name =>
    if (keywordsFor c).any (fun kw => containsSub (lowerS item_name) kw) then
      some c
    else scanFirst t item_name

/-- The scan order actually realized by `category_map`'s insertion order
(Pantry Staples before Bakery). -/
def code_scan_order : List Str :=
  [str "Fresh Produce", str "Dairy & Eggs", str "Meat & Seafood",
   str "Pantry Staples", str "Bakery", str "Frozen", str "Beverages",
   str "Snacks"]

/-- The canonical scan order asserted by the claim (Bakery before Pantry
Staples); written from the claim's words, for comparison with
`_get_category`. -/
def claim_scan_order : List Str :=
  [str "Fresh Produce", str "Dairy & Eggs", str "Meat & Seafood",
   str "Bakery", str "Pantry Staples", str "Frozen", str "Beverages",
   str "Snacks"]

/-- The categorizer as the claim describes it (claimed canonical order). -/
def _get_category_claim_order (item_name : Str) : Str :=
  (scanFirst claim_scan_order item_name).getD (str "Other")

end SmartShoppingListGenerator

/-!
# Theorems

## Generic string lemmas
-/

theorem containsSub_iff (hay needle : Str) :
    containsSub hay needle = true ↔ needle <:+: hay := by
  induction hay with
  | nil =>
    simp [containsSub, List.isEmpty_iff, List.infix_nil]
  | cons c t ih =>
    simp only [containsSub, Bool.or_eq_true, ih,
      List.isPrefixOf_iff_prefix, List.infix_cons_iff]

theorem containsSub_refl (s : Str) : containsSub s s = true :=
  (containsSub_iff s s).mpr (List.infix_refl s)

theorem containsSub_nil (s : Str) : containsSub s [] = true :=
  (containsSub_iff s []).mpr List.nil_infix

theorem lowerS_append (a b : Str) : lowerS (a ++ b) = lowerS a ++ lowerS b :=
  List.map_append Char.toLower a b

/-- `'organic'` occurs in the lowering of any name prefixed by `'organic '`. -/
theorem containsSub_organic_prefixed (s : Str) :
    containsSub (lowerS (str "organic " ++ s)) (str "organic") = true := by
  rw [containsSub_iff, lowerS_append]
  have h1 : lowerS (str "organic ") = str "organic" ++ [' '] := by decide
  rw [h1, List.append_assoc]
  exact (List.prefix_append (str "organic") ([' '] ++ lowerS s)).isInfix

/-!
## C7 — organic-prefix idempotence
-/

theorem orgStep_idem (os : List Str) (item : Item) :
    SmartShoppingListGenerator.orgStep os
        (SmartShoppingListGenerator.orgStep os item)
      = SmartShoppingListGenerator.orgStep os item := by
  by_cases hc : (os.any
        (fun pref => containsSub (lowerS item.name) pref) = true)
      ∧ ¬ (containsSub (lowerS item.name) (str "organic") = true)
  · have h1 : SmartShoppingListGenerator.orgStep os item =
        { item with
          name := str "organic " ++ item.name,
          notes := some (item.notes.getD [] ++ str " 🌱") } := by
      simp only [SmartShoppingListGenerator.orgStep]
      rw [if_pos hc]
    rw [h1]
    simp only [SmartShoppingListGenerator.orgStep]
    rw [if_neg]
    simp [containsSub_organic_prefixed item.name]
  · have h1 : SmartShoppingListGenerator.orgStep os item = item := by
      simp only [SmartShoppingListGenerator.orgStep]
      rw [if_neg hc]
    rw [h1, h1]

/-- C7: applying `_apply_organic_preferences` twice yields the same item list
as applying it once — an item whose lower-cased name already contains
`'organic'` is never prefixed again, so no double `'organic organic '`
prefix can arise. -/
theorem C7_organic_idempotent :
    ∀ (items : List Item) (prefs : List Str),
      SmartShoppingListGenerator._apply_organic_preferences
          (SmartShoppingListGenerator._apply_organic_preferences items prefs)
          prefs
        = SmartShoppingListGenerator._apply_organic_preferences items prefs := by
  intro items prefs
  unfold SmartShoppingListGenerator._apply_organic_preferences
  by_cases h : prefs.isEmpty = true
  · simp [h]
  · simp only [h, if_false, Bool.false_eq_true]
    rw [List.map_map]
    exact List.map_congr_left (fun a _ => orgStep_idem _ a)

/-!
## C6 — categorizer tie-break order
-/

/-- C6 counterexample: `'flour cake'` matches a Bakery keyword (`'cake'`) and
a Pantry Staples keyword (`'flour'`); the claimed canonical order (Bakery
before Pantry Staples) would resolve it to `Bakery`, but `_get_category`
scans `category_map` in its insertion order and returns `Pantry Staples`. -/
theorem C6_scan_order_counterexample :
    containsSub (lowerS (str "flour cake")) (str "cake") = true
    ∧ (str "cake")
        ∈ SmartShoppingListGenerator.keywordsFor (str "Bakery")
    ∧ (str "flour")
        ∈ SmartShoppingListGenerator.keywordsFor (str "Pantry Staples")
    ∧ SmartShoppingListGenerator._get_category_claim_order (str "flour cake")
        = str "Bakery"
    ∧ SmartShoppingListGenerator._get_category (str "flour cake")
        = str "Pantry Staples"
    ∧ SmartShoppingListGenerator._get_category (str "flour cake")
        ≠ str "Bakery" := by
  refine ⟨by decide, by decide, by decide, by decide, by decide, by decide⟩

/-- C6 (amended): `_get_category` scans the table in its insertion order —
Fresh Produce, Dairy & Eggs, Meat & Seafood, Pantry Staples, Bakery, Frozen,
Beverages, Snacks — returning the first keyword-matching category and
`Other` when no keyword matches; a name matching both a Bakery and a Pantry
Staples keyword therefore resolves to Pantry Staples. -/
theorem C6_scan_order :
    ∀ name : Str,
      SmartShoppingListGenerator._get_category name
        = (SmartShoppingListGenerator.scanFirst
            SmartShoppingListGenerator.code_scan_order name).getD
            (str "Other") := by
  intro name
  rfl

/-!
## Grouping lemmas for `_combine_duplicates` (claims C3, C4, C5)
-/

open SmartShoppingListGenerator in
theorem gkfold_const (k : Str) :
    ∀ (its : List Item), (∀ it ∈ its, normName it.name = k) →
      List.foldl gkStep [k] its = [k] := by
  intro its
  induction its with
  | nil => intro _; rfl
  | cons i t ih =>
    intro h
    have hi : normName i.name = k := h i (List.mem_cons_self i t)
    have hstep : gkStep [k] i = [k] := by simp [gkStep, hi]
    rw [List.foldl_cons, hstep]
    exact ih (fun it hit => h it (List.mem_cons_of_mem _ hit))

open SmartShoppingListGenerator in
theorem groupKeys_uniform (k : Str) (its : List Item) (hne : its ≠ [])
    (hall : ∀ it ∈ its, normName it.name = k) :
    groupKeys its = [k] := by
  match its, hne with
  | i :: t, _ =>
    have hi : normName i.name = k := hall i (List.mem_cons_self i t)
    have hstep : gkStep [] i = [k] := by simp [gkStep, hi]
    unfold groupKeys
    rw [List.foldl_cons, hstep]
    exact gkfold_const k t (fun it hit => hall it (List.mem_cons_of_mem _ hit))

open SmartShoppingListGenerator in
theorem combine_uniform (k : Str) (its : List Item) (hne : its ≠ [])
    (hall : ∀ it ∈ its, normName it.name = k) :
    _combine_duplicates its = combGroup k its := by
  unfold _combine_duplicates
  rw [groupKeys_uniform k its hne hall]
  have hfilter : its.filter (fun it => decide (normName it.name = k)) = its :=
    List.filter_eq_self.mpr (fun a ha => by simp [hall a ha])
  simp [hfilter]

open SmartShoppingListGenerator in
theorem perLineNotes_eq :
    ∀ (k : Nat) (its : List Item),
      perLineNotes k its
        = (List.enumFrom k its).map (fun p =>
            { p.2 with notes := some (str "From recipe " ++ natStr (p.1 + 1)) }) := by
  intro k its
  induction its generalizing k with
  | nil => rfl
  | cons i t ih => simp [perLineNotes, List.enumFrom, ih]

/-!
## `Frac` semantics lemmas
-/

theorem fracVal_add (a b : Frac) :
    fracVal (fracAdd a b) = fracVal a + fracVal b := by
  unfold fracVal fracAdd
  rw [div_add_div _ _ (by positivity) (by positivity), ← pow_add]
  push_cast
  ring_nf

theorem fracVal_pos_iff (f : Frac) : 0 < fracVal f ↔ 0 < f.1 := by
  unfold fracVal
  rw [lt_div_iff₀ (by positivity), zero_mul, Nat.cast_pos]

theorem fracAdd_zero_left (f : Frac) : fracAdd fracZero f = f := by
  simp [fracAdd, fracZero]

/-!
## C3 — aggregation key
-/

/-- C3 counterexample: `('flour','2','cup')` and `('flour','200','g')` have
equal normalized names but different units, yet `_combine_duplicates` merges
them and sums the quantities (`202`, with the first line's unit `cup`) —
the aggregation key is the name alone, not name-plus-unit. -/
theorem C3_key_counterexample :
    SmartShoppingListGenerator._combine_duplicates
        [{ name := str "flour", quantity := some (str "2"),
           unit := some (str "cup") },
         { name := str "flour", quantity := some (str "200"),
           unit := some (str "g") }]
      = [{ name := str "flour", quantity := some (str "202"),
           unit := some (str "cup"),
           notes := some (str "Combined from 2 recipes") }] := by
  decide

/-- C3 (amended): two lines are grouped for aggregation iff their normalized
names are equal — the unit takes no part in the key.  Lines with distinct
normalized names stay separate; lines with equal normalized names and
parseable, positively-summing quantities are merged into one entry carrying
the *first* line's unit, even when the units differ. -/
theorem C3_name_only_key :
    (∀ a b : Item, normName a.name ≠ normName b.name →
        SmartShoppingListGenerator._combine_duplicates [a, b] = [a, b])
    ∧ (∀ (a b : Item) (qa qb : Frac),
        normName a.name = normName b.name →
        SmartShoppingListGenerator.qtyOf a = some qa →
        SmartShoppingListGenerator.qtyOf b = some qb →
        0 < fracVal qa + fracVal qb →
        SmartShoppingListGenerator._combine_duplicates [a, b]
          = [{ name := normName a.name,
               quantity := some (fmt1 (fracAdd qa qb)),
               unit := some (a.unit.getD []),
               notes := some (str "Combined from 2 recipes") }]) := by
  constructor
  · intro a b hne
    have hne2 : normName b.name ≠ normName a.name := Ne.symm hne
    simp [SmartShoppingListGenerator._combine_duplicates,
      SmartShoppingListGenerator.groupKeys,
      SmartShoppingListGenerator.gkStep,
      SmartShoppingListGenerator.combGroup, hne, hne2]
  · intro a b qa qb heq hqa hqb hpos
    have hall : ∀ it ∈ [a, b], normName it.name = normName a.name := by
      intro it hit
      rcases List.mem_pair.mp hit with h | h <;> subst h
      · rfl
      · exact heq.symm
    rw [combine_uniform (normName a.name) [a, b] (by simp) hall]
    have htot : SmartShoppingListGenerator.totalOf [a, b] = fracAdd qa qb := by
      simp [SmartShoppingListGenerator.totalOf, hqa, hqb, fracAdd_zero_left]
    have hpos2 : 0 < (fracAdd qa qb).1 := by
      rw [← fracVal_pos_iff, fracVal_add]
      exact hpos
    have hnote : str "Combined from " ++ natStr 2 ++ str " recipes"
        = str "Combined from 2 recipes" := by decide
    simp [SmartShoppingListGenerator.combGroup, hqa, hqb, htot, hpos2, hnote]

/-- C3 witness: the amended theorem applied at the claim's own example pair
(`2 cup` + `200 g` of flour) and at a distinct-names pair. -/
theorem C3_name_only_key_witness :
    SmartShoppingListGenerator._combine_duplicates
        [{ name := str "flour", quantity := some (str "2"),
           unit := some (str "cup") },
         { name := str "flour", quantity := some (str "200"),
           unit := some (str "g") }]
      = [{ name := str "flour", quantity := some (fmt1 (fracAdd (2, 0) (200, 0))),
           unit := some (str "cup"),
           notes := some (str "Combined from 2 recipes") }]
    ∧ SmartShoppingListGenerator._combine_duplicates
        [{ name := str "milk" }, { name := str "bread" }]
      = [{ name := str "milk" }, { name := str "bread" }] :=
  ⟨C3_name_only_key.2
      { name := str "flour", quantity := some (str "2"),
        unit := some (str "cup") }
      { name := str "flour", quantity := some (str "200"),
        unit := some (str "g") }
      (2, 0) (200, 0) (by decide) (by decide) (by decide)
      (by norm_num [fracVal]),
   C3_name_only_key.1 { name := str "milk" } { name := str "bread" }
      (by decide)⟩

/-!
## C4 — aggregation algorithm
-/

/-- C4 counterexample: in the group `('flour','0','cup')`, `('flour','0','cup')`
every quantity parses as a numeric token, yet no single summed item is
emitted — the code additionally requires `total_qty > 0`, so the group falls
back to one entry per line. -/
theorem C4_zero_sum_counterexample :
    (SmartShoppingListGenerator.qtyOf
        { name := str "flour", quantity := some (str "0"),
          unit := some (str "cup") }).isSome = true
    ∧ SmartShoppingListGenerator._combine_duplicates
        [{ name := str "flour", quantity := some (str "0"),
           unit := some (str "cup") },
         { name := str "flour", quantity := some (str "0"),
           unit := some (str "cup") }]
      = [{ name := str "flour", quantity := some (str "0"),
           unit := some (str "cup"), notes := some (str "From recipe 1") },
         { name := str "flour", quantity := some (str "0"),
           unit := some (str "cup"), notes := some (str "From recipe 2") }] := by
  decide

/-- C4 (amended): for a group of ≥ 2 lines sharing the normalized-name key,
if every quantity parses *and the sum is positive* one item is emitted whose
quantity is the formatted sum and whose note is `'Combined from N recipes'`;
otherwise (a parse failure, or an all-zero sum) one entry per original line
is emitted, annotated `'From recipe i'` (1-indexed).  The claim's two
concrete examples hold: `('flour','2','cup') + ('flour','1','cup')` gives
one item with quantity `'3'`, unit `'cup'` and a note mentioning `'2'`, and
`('flour','2','cup') + ('flour','half','cup')` gives two entries annotated
`'From recipe 1'` / `'From recipe 2'`. -/
theorem C4_group_aggregation :
    (∀ (k : Str) (its : List Item), its ≠ [] →
      (∀ it ∈ its, normName it.name = k) → 2 ≤ its.length →
      (((its.map SmartShoppingListGenerator.qtyOf).all Option.isSome = true ∧
          0 < (SmartShoppingListGenerator.totalOf its).1) →
        SmartShoppingListGenerator._combine_duplicates its
          = [{ name := k,
               quantity := some (fmt1 (SmartShoppingListGenerator.totalOf its)),
               unit := some (its.head?.elim []
                               (fun it => it.unit.getD [])),
               notes := some (str "Combined from " ++ natStr its.length
                                ++ str " recipes") }])
      ∧ (¬ ((its.map SmartShoppingListGenerator.qtyOf).all Option.isSome = true ∧
            0 < (SmartShoppingListGenerator.totalOf its).1) →
        SmartShoppingListGenerator._combine_duplicates its
          = (List.enumFrom 0 its).map (fun p =>
              { p.2 with
                notes := some (str "From recipe " ++ natStr (p.1 + 1)) })))
    ∧ SmartShoppingListGenerator._combine_duplicates
        [{ name := str "flour", quantity := some (str "2"),
           unit := some (str "cup") },
         { name := str "flour", quantity := some (str "1"),
           unit := some (str "cup") }]
      = [{ name := str "flour", quantity := some (str "3"),
           unit := some (str "cup"),
           notes := some (str "Combined from 2 recipes") }]
    ∧ SmartShoppingListGenerator._combine_duplicates
        [{ name := str "flour", quantity := some (str "2"),
           unit := some (str "cup") },
         { name := str "flour", quantity := some (str "half"),
           unit := some (str "cup") }]
      = [{ name := str "flour", quantity := some (str "2"),
           unit := some (str "cup"), notes := some (str "From recipe 1") },
         { name := str "flour", quantity := some (str "half"),
           unit := some (str "cup"), notes := some (str "From recipe 2") }] := by
  refine ⟨?_, by decide, by decide⟩
  intro k its hne hall hlen
  have hlen1 : ¬ (its.length = 1) := by omega
  rw [combine_uniform k its hne hall]
  constructor
  · intro hcond
    simp only [SmartShoppingListGenerator.combGroup, if_neg hlen1]
    rw [if_pos hcond]
  · intro hcond
    simp only [SmartShoppingListGenerator.combGroup, if_neg hlen1]
    rw [if_neg hcond, perLineNotes_eq]

/-- C4 witness: the amended dichotomy applied to the concrete positive-sum
group of the claim. -/
theorem C4_group_aggregation_witness :
    SmartShoppingListGenerator._combine_duplicates
        [{ name := str "flour", quantity := some (str "2"),
           unit := some (str "cup") },
         { name := str "flour", quantity := some (str "1"),
           unit := some (str "cup") }]
      = [{ name := str "flour",
           quantity := some (fmt1 (SmartShoppingListGenerator.totalOf
             [{ name := str "flour", quantity := some (str "2"),
                unit := some (str "cup") },
              { name := str "flour", quantity := some (str "1"),
                unit := some (str "cup") }])),
           unit := some (str "cup"),
           notes := some (str "Combined from 2 recipes") }] :=
  ((C4_group_aggregation.1 (str "flour")
      [{ name := str "flour", quantity := some (str "2"),
         unit := some (str "cup") },
       { name := str "flour", quantity := some (str "1"),
         unit := some (str "cup") }]
      (by decide) (by decide) (by decide)).1 (by decide)).trans (by decide)

/-!
## C5 — empty vs. absent quantity
-/

/-- C5 counterexample: two lines whose quantity key is *absent* are not sent
to the per-line fallback — `item.get('quantity', '1')` defaults the missing
quantity to `'1'`, which parses, so the group is summed to `'2'`. -/
theorem C5_missing_quantity_counterexample :
    SmartShoppingListGenerator._combine_duplicates
        [{ name := str "flour", quantity := none, unit := some (str "cup") },
         { name := str "flour", quantity := none, unit := some (str "cup") }]
      = [{ name := str "flour", quantity := some (str "2"),
           unit := some (str "cup"),
           notes := some (str "Combined from 2 recipes") }] := by
  decide

/-- C5 (amended): an *empty* quantity string parses to nothing (a parse
failure, forcing the per-line fallback, as in the concrete group below), but
an *absent* quantity defaults to `'1'` and parses as one — it is treated as
the numeric value 1, not as a parse failure and not as zero. -/
theorem C5_empty_vs_missing_quantity :
    (∀ it : Item, it.quantity = some [] →
        SmartShoppingListGenerator.qtyOf it = none)
    ∧ (∀ it : Item, it.quantity = none →
        SmartShoppingListGenerator.qtyOf it = some (1, 0))
    ∧ SmartShoppingListGenerator._combine_duplicates
        [{ name := str "flour", quantity := some [], unit := some (str "cup") },
         { name := str "flour", quantity := some [], unit := some (str "cup") }]
      = [{ name := str "flour", quantity := some [],
           unit := some (str "cup"), notes := some (str "From recipe 1") },
         { name := str "flour", quantity := some [],
           unit := some (str "cup"), notes := some (str "From recipe 2") }] := by
  refine ⟨?_, ?_, by decide⟩
  · intro it h
    simp [SmartShoppingListGenerator.qtyOf, h, parseQty, findNum]
  · intro it h
    simp [SmartShoppingListGenerator.qtyOf, h]
    decide

/-- C5 witness: the amended statement applied at concrete items with an
empty and an absent quantity. -/
theorem C5_empty_vs_missing_quantity_witness :
    SmartShoppingListGenerator.qtyOf
        { name := str "flour", quantity := some [], unit := some (str "cup") }
      = none
    ∧ SmartShoppingListGenerator.qtyOf
        { name := str "flour", quantity := none, unit := some (str "cup") }
      = some (1, 0) :=
  ⟨C5_empty_vs_missing_quantity.1
      { name := str "flour", quantity := some [], unit := some (str "cup") }
      rfl,
   C5_empty_vs_missing_quantity.2.1
      { name := str "flour", quantity := none, unit := some (str "cup") }
      rfl⟩

/-!
## C8 — substitution matching semantics at the two call sites
-/

/-- C8 counterexample: the item `'plain flour'` *contains* the rule's
original `'flour'` as a substring, yet the deterministic optimizer's
`_apply_substitutions` leaves it unchanged — that call site uses exact
lower-cased dict lookup, not substring containment. -/
theorem C8_substitution_counterexample :
    containsSub (lowerS (str "plain flour")) (lowerS (str "flour")) = true
    ∧ SmartShoppingListGenerator._apply_substitutions
        [{ name := str "plain flour", quantity := some (str "2"),
           unit := some (str "cup") }]
        [{ original_ingredient := str "flour",
           replacement := str "spelt flour" }]
      = [{ name := str "plain flour", quantity := some (str "2"),
           unit := some (str "cup") }] := by
  refine ⟨by decide, by decide⟩

/-- C8 (amended): the two call sites disagree.  The Flask helper
`apply_preferences` substitutes whenever the item's lower-cased name contains
the rule's lower-cased `original` (recording the pre-substitution name and an
audit note); the deterministic optimizer's `_apply_substitutions` substitutes
only when the lower-cased name is exactly a key of its substitution map
(appending an audit note naming the lower-cased original name). -/
theorem C8_substitution_call_sites :
    (∀ (item : Item) (subs : List SubRule), subs ≠ [] →
        SmartShoppingListGenerator.mapGet
            (SmartShoppingListGenerator.buildSubMap subs) (lowerS item.name)
          = none →
        SmartShoppingListGenerator._apply_substitutions [item] subs = [item])
    ∧ (∀ (item : Item) (subs : List SubRule) (repl : Str), subs ≠ [] →
        SmartShoppingListGenerator.mapGet
            (SmartShoppingListGenerator.buildSubMap subs) (lowerS item.name)
          = some repl →
        SmartShoppingListGenerator._apply_substitutions [item] subs
          = [{ item with
               name := repl,
               notes := some (item.notes.getD [] ++ str " (Substituted from "
                                ++ lowerS item.name ++ str ")") }])
    ∧ (∀ (item : FItem) (sub : FSub),
        containsSub (lowerS item.name) (lowerS sub.original) = true →
        apply_preferences [item] [sub] []
          = [{ item with
               original_name := some item.name,
               name := sub.substitute,
               notes := some (item.notes.getD []
                                ++ [str "Substituted from " ++ sub.original]) }])
    ∧ (∀ (item : FItem) (sub : FSub),
        containsSub (lowerS item.name) (lowerS sub.original) = false →
        apply_preferences [item] [sub] [] = [item]) := by
  refine ⟨?_, ?_, ?_, ?_⟩
  · intro item subs hsubs hget
    have hne : subs.isEmpty ≠ true := by simpa [List.isEmpty_iff] using hsubs
    unfold SmartShoppingListGenerator._apply_substitutions
    rw [if_neg hne]
    simp [hget]
  · intro item subs repl hsubs hget
    have hne : subs.isEmpty ≠ true := by simpa [List.isEmpty_iff] using hsubs
    unfold SmartShoppingListGenerator._apply_substitutions
    rw [if_neg hne]
    simp [hget]
  · intro item sub h
    simp [apply_preferences, h]
  · intro item sub h
    simp [apply_preferences, h]

/-- C8 witness: the amended statement applied at `'plain flour'` with the
rule `'flour' → 'spelt flour'`: the optimizer call site leaves the item
unchanged while the Flask call site substitutes it. -/
theorem C8_substitution_call_sites_witness :
    SmartShoppingListGenerator._apply_substitutions
        [{ name := str "plain flour" }]
        [{ original_ingredient := str "flour",
           replacement := str "spelt flour" }]
      = [{ name := str "plain flour" }]
    ∧ apply_preferences [{ name := str "plain flour" }]
        [{ original := str "flour", substitute := str "spelt flour" }] []
      = [{ name := str "spelt flour",
           notes := some [str "Substituted from flour"],
           original_name := some (str "plain flour") }] :=
  ⟨C8_substitution_call_sites.1 { name := str "plain flour" }
      [{ original_ingredient := str "flour",
         replacement := str "spelt flour" }]
      (by decide) (by decide),
   (C8_substitution_call_sites.2.2.1 { name := str "plain flour" }
      { original := str "flour", substitute := str "spelt flour" }
      (by decide)).trans (by decide)⟩

/-!
## C9 — match-report arithmetic
-/

theorem matched_length_eq (items : List SListItem)
    (search : SListItem → Option SearchHit) :
    (items.filterMap (fun it => (search it).map (fun hit => (it, hit)))).length
      = items.countP (fun it => (search it).isSome) := by
  induction items with
  | nil => rfl
  | cons i t ih =>
    cases h : search i <;>
      simp [List.filterMap_cons, List.countP_cons, h, ih]

theorem matched_cost_eq (items : List SListItem)
    (search : SListItem → Option SearchHit) :
    ((items.filterMap
        (fun it => (search it).map (fun hit => (it, hit)))).map
      (fun p => p.2.price.getD 0)).sum
      = (items.map
          (fun it => ((search it).bind (fun hit => hit.price)).getD 0)).sum := by
  induction items with
  | nil => rfl
  | cons i t ih =>
    cases h : search i <;> simp [List.filterMap_cons, h, ih]

/-- C9: `match_shopping_list` reports `match_rate` equal to the matched
count divided by the total item count times 100 (0 for the empty list — no
division by zero), and `estimated_cost` as the sum of matched item prices
with a missing price counted as zero; matching the empty list yields
`match_rate = 0` and `estimated_cost = 0`. -/
theorem C9_match_report_arithmetic :
    ∀ (items : List SListItem) (search : SListItem → Option SearchHit),
      (ShoppingListMatcher.match_shopping_list items search).total_items
        = items.length
      ∧ (ShoppingListMatcher.match_shopping_list items search).total_matched
        = items.countP (fun it => (search it).isSome)
      ∧ (ShoppingListMatcher.match_shopping_list items search).match_rate
        = (if items.length = 0 then 0
           else (items.countP (fun it => (search it).isSome) : ℚ)
                  / (items.length : ℚ) * 100)
      ∧ (ShoppingListMatcher.match_shopping_list items search).estimated_cost
        = (items.map
            (fun it => ((search it).bind (fun hit => hit.price)).getD 0)).sum
      ∧ (ShoppingListMatcher.match_shopping_list [] search).match_rate = 0
      ∧ (ShoppingListMatcher.match_shopping_list [] search).estimated_cost
        = 0 := by
  intro items search
  refine ⟨rfl, matched_length_eq items search, ?_,
    matched_cost_eq items search, rfl, rfl⟩
  cases items with
  | nil => rfl
  | cons i t =>
    simp only [ShoppingListMatcher.match_shopping_list, List.isEmpty_cons,
      if_false, Bool.false_eq_true, List.length_cons, Nat.succ_ne_zero,
      matched_length_eq]

/-!
## Repair-pass lemmas (claims C1, C10)
-/

theorem aiItemsLower_cons (k : Str) (vs : List AIItem)
    (t : List (Str × List AIItem)) :
    aiItemsLower ((k, vs) :: t)
      = vs.map (fun it => lowerStrip it.item) ++ aiItemsLower t := by
  simp [aiItemsLower]

theorem aiItemsLower_append (c1 c2 : List (Str × List AIItem)) :
    aiItemsLower (c1 ++ c2) = aiItemsLower c1 ++ aiItemsLower c2 := by
  simp [aiItemsLower]

theorem mem_aiItemsLower_of_pair {cats : List (Str × List AIItem)}
    {k : Str} {vs : List AIItem} {it : AIItem}
    (hp : (k, vs) ∈ cats) (hit : it ∈ vs) :
    lowerStrip it.item ∈ aiItemsLower cats := by
  unfold aiItemsLower
  exact List.mem_map_of_mem _
    (List.mem_flatten.mpr ⟨vs, List.mem_map_of_mem Prod.snd hp, hit⟩)

theorem mem_aiItemsLower_appendOther {x : Str}
    (cats : List (Str × List AIItem)) (ds : List AIItem)
    (hx : x ∈ aiItemsLower cats) :
    x ∈ aiItemsLower (appendOther cats ds) := by
  induction cats with
  | nil => simp [aiItemsLower] at hx
  | cons p t ih =>
    obtain ⟨k, vs⟩ := p
    rw [aiItemsLower_cons] at hx
    by_cases hk : k = str "Other"
    · simp only [appendOther, if_pos hk]
      rw [aiItemsLower_cons, List.map_append]
      rcases List.mem_append.mp hx with h | h
      · exact List.mem_append_left _ (List.mem_append_left _ h)
      · exact List.mem_append_right _ h
    · simp only [appendOther, if_neg hk]
      rw [aiItemsLower_cons]
      rcases List.mem_append.mp hx with h | h
      · exact List.mem_append_left _ h
      · exact List.mem_append_right _ (ih h)

theorem appendOther_mem_other {d : AIItem}
    (cats : List (Str × List AIItem)) (ds : List AIItem)
    (hother : cats.any (fun p => decide (p.1 = str "Other")) = true)
    (hd : d ∈ ds) :
    ∃ vs, (str "Other", vs) ∈ appendOther cats ds ∧ d ∈ vs := by
  induction cats with
  | nil => simp at hother
  | cons p t ih =>
    obtain ⟨k, vs⟩ := p
    by_cases hk : k = str "Other"
    · refine ⟨vs ++ ds, ?_, List.mem_append_right _ hd⟩
      simp only [appendOther, if_pos hk]
      rw [← hk]
      exact List.mem_cons_self _ _
    · simp only [List.any_cons, Bool.or_eq_true, decide_eq_true_eq] at hother
      rcases hother with h | h
      · exact absurd h hk
      · obtain ⟨vs', hmem, hd'⟩ := ih h
        refine ⟨vs', ?_, hd'⟩
        simp only [appendOther, if_neg hk]
        exact List.mem_cons_of_mem _ hmem

theorem ensureOther_any (cats : List (Str × List AIItem)) :
    (ensureOther cats).any (fun p => decide (p.1 = str "Other")) = true := by
  unfold ensureOther
  by_cases h : cats.any (fun p => decide (p.1 = str "Other")) = true
  · rw [if_pos h]; exact h
  · rw [if_neg h, List.any_append]
    simp

theorem ensureOther_sub {x : Str} (cats : List (Str × List AIItem))
    (hx : x ∈ aiItemsLower cats) :
    x ∈ aiItemsLower (ensureOther cats) := by
  unfold ensureOther
  split
  · exact hx
  · rw [aiItemsLower_append]
    exact List.mem_append_left _ hx

theorem coveredB_mono {n : Str} {l l' : List Str}
    (hsub : ∀ x ∈ l, x ∈ l') (h : coveredB n l = true) :
    coveredB n l' = true := by
  unfold coveredB at h ⊢
  rw [List.any_eq_true] at h ⊢
  obtain ⟨a, ha, hp⟩ := h
  exact ⟨a, hsub a ha, hp⟩

/-- Core of the repair guarantee: any name that is covered by the
classifier's own items, or that names a record of the missing list, is
covered by the repaired categories. -/
theorem repair_covers (cats : List (Str × List AIItem))
    (ms : List MissingRec) (df : MissingRec → AIItem)
    (hdf : ∀ m, (df m).item = m.name) (n : Str)
    (h : coveredB n (aiItemsLower cats) = true
          ∨ ∃ m ∈ ms, lowerStrip m.name = n) :
    coveredInB n
      (if ms.isEmpty then cats
       else appendOther (ensureOther cats) (ms.map df)) = true := by
  by_cases hms : ms.isEmpty = true
  · rw [if_pos hms]
    rcases h with h | ⟨m, hm, _⟩
    · exact h
    · rw [List.isEmpty_iff.mp hms] at hm
      simp at hm
  · rw [if_neg hms]
    rcases h with h | ⟨m, hm, hname⟩
    · exact coveredB_mono
        (fun x hx => mem_aiItemsLower_appendOther _ _ (ensureOther_sub _ hx)) h
    · obtain ⟨vs, hpair, hd⟩ :=
        appendOther_mem_other (ensureOther cats) (ms.map df)
          (ensureOther_any cats) (List.mem_map_of_mem df hm)
      have hmem := mem_aiItemsLower_of_pair hpair hd
      rw [hdf m, hname] at hmem
      unfold coveredInB coveredB
      rw [List.any_eq_true]
      exact ⟨n, hmem, by simp [containsSub_refl]⟩

theorem validate_fix_categories (res : AIResult) (raw : List Item)
    (staples : List Staple) :
    (ShoppingListOptimizer._validate_and_fix_missing_items
        res raw staples).categories
      = (if (missingFrom (aiItemsLower res.categories) raw staples).isEmpty
         then res.categories
         else appendOther (ensureOther res.categories)
           ((missingFrom (aiItemsLower res.categories) raw staples).map
             ShoppingListOptimizer.displayOf)) := by
  simp only [ShoppingListOptimizer._validate_and_fix_missing_items]
  split <;> rfl

theorem validate_items_categories (res : AIResult) (raw : List Item)
    (staples : List Staple) :
    (ShoppingListOptimizerNative._validate_items res raw staples).categories
      = (if (missingFrom (aiItemsLower res.categories) raw staples).isEmpty
         then res.categories
         else appendOther (ensureOther res.categories)
           ((missingFrom (aiItemsLower res.categories) raw staples).map
             ShoppingListOptimizerNative.displayOf)) := by
  simp only [ShoppingListOptimizerNative._validate_items]

theorem mem_missing_ing {ai : List Str} {raw : List Item}
    {staples : List Staple} {ing : Item} (hmem : ing ∈ raw)
    (hnc : coveredB (lowerStrip ing.name) ai = false) :
    (⟨ing.name, ing.quantity.getD [], ing.unit.getD [], false⟩ : MissingRec)
      ∈ missingFrom ai raw staples := by
  unfold missingFrom
  apply List.mem_append_left
  apply List.mem_map_of_mem
  rw [List.mem_filter]
  exact ⟨hmem, by simp [hnc]⟩

theorem mem_missing_staple {ai : List Str} {raw : List Item}
    {staples : List Staple} {s : Staple} (hmem : s ∈ staples)
    (hstock : s.in_stock = false)
    (hnc : coveredB (lowerStrip s.name) ai = false) :
    (⟨s.name, s.quantity, s.unit.getD [], true⟩ : MissingRec)
      ∈ missingFrom ai raw staples := by
  unfold missingFrom
  apply List.mem_append_right
  apply List.mem_map_of_mem
  rw [List.mem_filter]
  exact ⟨hmem, by simp [hstock, hnc]⟩

/-!
## C1 — completeness repair
-/

/-- C1 counterexample to the literal superset clause: the classifier covers
the input `'milk'` with the renamed item `'organic milk'`, so the repair pass
appends nothing and the output's normalized name set (`{'organic milk'}`)
does not contain the input name `'milk'` — coverage holds under the
substring test, but the output name set is not a literal superset of the
input name set. -/
theorem C1_superset_counterexample :
    ShoppingListOptimizer._validate_and_fix_missing_items
        { categories := [(str "Dairy & Eggs",
            [{ item := str "organic milk", quantity := str "3 cups",
               notes := [] }])],
          total_items := 1 }
        [{ name := str "milk", quantity := some (str "3"),
           unit := some (str "cups") }]
        []
      = { categories := [(str "Dairy & Eggs",
            [{ item := str "organic milk", quantity := str "3 cups",
               notes := [] }])],
          total_items := 1 }
    ∧ lowerStrip (str "milk") = str "milk"
    ∧ str "milk"
        ∉ aiItemsLower
            (ShoppingListOptimizer._validate_and_fix_missing_items
                { categories := [(str "Dairy & Eggs",
                    [{ item := str "organic milk", quantity := str "3 cups",
                       notes := [] }])],
                  total_items := 1 }
                [{ name := str "milk", quantity := some (str "3"),
                   unit := some (str "cups") }]
                []).categories := by
  refine ⟨by decide, by decide, by decide⟩

/-- C1 (amended): for every structurally valid classifier result, raw
ingredient list and staple list, both repair passes return a result in which
each raw-ingredient name and each not-in-stock staple name, lower-cased and
trimmed, is covered by some output item (the input name is a substring of
the output item's normalized name or vice versa); any input not covered by
the classifier's output is appended to `Other` with the note
`'Added (missing from AI)'`, so coverage — though not literal name-set
inclusion — always holds. -/
theorem C1_repair_coverage :
    ∀ (res : AIResult) (raw : List Item) (staples : List Staple),
      (∀ ing ∈ raw,
        coveredInB (lowerStrip ing.name)
          ((ShoppingListOptimizer._validate_and_fix_missing_items
              res raw staples).categories) = true)
      ∧ (∀ s ∈ staples, s.in_stock = false →
        coveredInB (lowerStrip s.name)
          ((ShoppingListOptimizer._validate_and_fix_missing_items
              res raw staples).categories) = true)
      ∧ (∀ ing ∈ raw,
        coveredInB (lowerStrip ing.name)
          ((ShoppingListOptimizerNative._validate_items
              res raw staples).categories) = true)
      ∧ (∀ s ∈ staples, s.in_stock = false →
        coveredInB (lowerStrip s.name)
          ((ShoppingListOptimizerNative._validate_items
              res raw staples).categories) = true) := by
  intro res raw staples
  have hing : ∀ ing ∈ raw,
      coveredB (lowerStrip ing.name) (aiItemsLower res.categories) = true
        ∨ ∃ m ∈ missingFrom (aiItemsLower res.categories) raw staples,
            lowerStrip m.name = lowerStrip ing.name := by
    intro ing hmem
    by_cases hc : coveredB (lowerStrip ing.name)
        (aiItemsLower res.categories) = true
    · exact Or.inl hc
    · exact Or.inr ⟨_, mem_missing_ing hmem (Bool.eq_false_iff.mpr hc), rfl⟩
  have hst : ∀ s ∈ staples, s.in_stock = false →
      coveredB (lowerStrip s.name) (aiItemsLower res.categories) = true
        ∨ ∃ m ∈ missingFrom (aiItemsLower res.categories) raw staples,
            lowerStrip m.name = lowerStrip s.name := by
    intro s hmem hstock
    by_cases hc : coveredB (lowerStrip s.name)
        (aiItemsLower res.categories) = true
    · exact Or.inl hc
    · exact Or.inr
        ⟨_, mem_missing_staple hmem hstock (Bool.eq_false_iff.mpr hc), rfl⟩
  refine ⟨?_, ?_, ?_, ?_⟩
  · intro ing hmem
    rw [validate_fix_categories]
    exact repair_covers _ _ _ (fun m => rfl) _ (hing ing hmem)
  · intro s hmem hstock
    rw [validate_fix_categories]
    exact repair_covers _ _ _ (fun m => rfl) _ (hst s hmem hstock)
  · intro ing hmem
    rw [validate_items_categories]
    exact repair_covers _ _ _ (fun m => rfl) _ (hing ing hmem)
  · intro s hmem hstock
    rw [validate_items_categories]
    exact repair_covers _ _ _ (fun m => rfl) _ (hst s hmem hstock)

/-- C1 witness: the coverage theorem at a concrete run in which the
classifier kept `'milk'` (renamed), dropped `'quinoa'`, and ignored the
not-in-stock staple `'sugar'`. -/
theorem C1_repair_coverage_witness :
    coveredInB (lowerStrip (str "quinoa"))
      ((ShoppingListOptimizer._validate_and_fix_missing_items
          { categories := [(str "Dairy & Eggs",
              [{ item := str "organic milk", quantity := str "2L",
                 notes := [] }])],
            total_items := 1 }
          [{ name := str "milk" }, { name := str "quinoa" }]
          [{ name := str "sugar", quantity := str "1" }]).categories) = true
    ∧ coveredInB (lowerStrip (str "sugar"))
        ((ShoppingListOptimizerNative._validate_items
            { categories := [(str "Dairy & Eggs",
                [{ item := str "organic milk", quantity := str "2L",
                   notes := [] }])],
              total_items := 1 }
            [{ name := str "milk" }, { name := str "quinoa" }]
            [{ name := str "sugar", quantity := str "1" }]).categories)
        = true :=
  ⟨(C1_repair_coverage
      { categories := [(str "Dairy & Eggs",
          [{ item := str "organic milk", quantity := str "2L",
             notes := [] }])],
        total_items := 1 }
      [{ name := str "milk" }, { name := str "quinoa" }]
      [{ name := str "sugar", quantity := str "1" }]).1
      { name := str "quinoa" } (by decide),
   (C1_repair_coverage
      { categories := [(str "Dairy & Eggs",
          [{ item := str "organic milk", quantity := str "2L",
             notes := [] }])],
        total_items := 1 }
      [{ name := str "milk" }, { name := str "quinoa" }]
      [{ name := str "sugar", quantity := str "1" }]).2.2.2
      { name := str "sugar", quantity := str "1" } (by decide) rfl⟩

/-!
## C10 — empty-name item defeats the repair pass
-/

/-- C10: if some classifier output item's name lower-cases and strips to the
empty string, the substring coverage test accepts every input (the empty
string is a substring of everything), so the repair pass finds nothing
missing and reinjects nothing — the LangChain validator returns its input
unchanged, and the native validator keeps the categories unchanged. -/
theorem C10_empty_name_blocks_repair :
    ∀ (res : AIResult) (raw : List Item) (staples : List Staple),
      (∃ p ∈ res.categories, ∃ it ∈ p.2, lowerStrip it.item = []) →
      missingFrom (aiItemsLower res.categories) raw staples = []
      ∧ ShoppingListOptimizer._validate_and_fix_missing_items res raw staples
          = res
      ∧ (ShoppingListOptimizerNative._validate_items res raw staples).categories
          = res.categories := by
  intro res raw staples h
  obtain ⟨p, hp, it, hit, hname⟩ := h
  have hmem : ([] : Str) ∈ aiItemsLower res.categories := by
    have hpair : (p.1, p.2) ∈ res.categories := by
      rw [Prod.mk.eta]; exact hp
    have := mem_aiItemsLower_of_pair hpair hit
    rwa [hname] at this
  have hcov : ∀ n : Str,
      coveredB n (aiItemsLower res.categories) = true := by
    intro n
    unfold coveredB
    rw [List.any_eq_true]
    exact ⟨[], hmem, by simp [containsSub_nil]⟩
  have hmiss : missingFrom (aiItemsLower res.categories) raw staples = [] := by
    unfold missingFrom
    simp [List.filter_eq_nil_iff, hcov]
  refine ⟨hmiss, ?_, ?_⟩
  · simp only [ShoppingListOptimizer._validate_and_fix_missing_items, hmiss]
    rfl
  · rw [validate_items_categories, hmiss]
    rfl

/-- C10 witness: a classifier output containing a whitespace-only item name
blocks the reinjection of the dropped ingredient `'milk'` and of the
not-in-stock staple `'sugar'`. -/
theorem C10_empty_name_blocks_repair_witness :
    missingFrom
        (aiItemsLower [(str "Other", [{ item := str "   ", quantity := [],
                                        notes := [] }])])
        [{ name := str "milk" }]
        [{ name := str "sugar", quantity := str "1" }] = []
    ∧ ShoppingListOptimizer._validate_and_fix_missing_items
        { categories := [(str "Other", [{ item := str "   ", quantity := [],
                                          notes := [] }])],
          total_items := 1 }
        [{ name := str "milk" }]
        [{ name := str "sugar", quantity := str "1" }]
      = { categories := [(str "Other", [{ item := str "   ", quantity := [],
                                          notes := [] }])],
          total_items := 1 }
    ∧ (ShoppingListOptimizerNative._validate_items
        { categories := [(str "Other", [{ item := str "   ", quantity := [],
                                          notes := [] }])],
          total_items := 1 }
        [{ name := str "milk" }]
        [{ name := str "sugar", quantity := str "1" }]).categories
      = [(str "Other", [{ item := str "   ", quantity := [],
                          notes := [] }])] :=
  C10_empty_name_blocks_repair
    { categories := [(str "Other", [{ item := str "   ", quantity := [],
                                      notes := [] }])],
      total_items := 1 }
    [{ name := str "milk" }]
    [{ name := str "sugar", quantity := str "1" }]
    (by decide)

/-!
## C2 — classifier-failure fallback
-/

/-- C2 counterexample: on classifier failure for the single ingredient
`milk 1 L`, the deterministic pipeline puts `milk` under `Dairy & Eggs`
(and has no `Other` bucket), while the AI optimizer's fallback puts `milk`
under `Other` with four empty fixed categories — the two lists are not
identical even modulo ordering, since the per-category contents differ. -/
theorem C2_fallback_not_deterministic_counterexample :
    (SmartShoppingListGenerator.generate_optimized_list
        [{ name := str "milk", quantity := some (str "1"),
           unit := some (str "L") }] [] [] []).categories
      = [(str "Dairy & Eggs",
          [{ item := str "milk", quantity := str "1", unit := str "L",
             notes := [] }])]
    ∧ (ShoppingListOptimizer.optimize_shopping_list (Except.error ())
        [{ name := str "milk", quantity := some (str "1"),
           unit := some (str "L") }] []).categories
      = [(str "Fresh Produce", []), (str "Dairy & Eggs", []),
         (str "Meat & Protein", []), (str "Pantry Staples", []),
         (str "Other",
          [{ item := str "milk", quantity := str "1 L", notes := [] }])] := by
  refine ⟨by decide, by decide⟩

/-- C2 (amended): when the external classifier call fails, the AI-assisted
optimizer returns `_fallback_organization`'s basic result — every raw
ingredient and every not-in-stock staple is placed verbatim in the `Other`
category (no categorization, no substitutions, no organic preferences), with
a tip noting that AI optimization is unavailable; this is in general *not*
the deterministic pipeline's output. -/
theorem C2_failure_returns_basic_fallback :
    ∀ (raw : List Item) (staples : List Staple) (e : Unit),
      ShoppingListOptimizer.optimize_shopping_list (Except.error e) raw staples
        = ShoppingListOptimizer._fallback_organization raw staples
      ∧ (ShoppingListOptimizer._fallback_organization raw staples).categories
        = [(str "Fresh Produce", []), (str "Dairy & Eggs", []),
           (str "Meat & Protein", []), (str "Pantry Staples", []),
           (str "Other",
            raw.map (fun ing =>
              { item := ing.name,
                quantity := strip ((ing.quantity.getD []) ++ [' ']
                                     ++ (ing.unit.getD [])),
                notes := [] })
            ++ (staples.filter (fun s => s.in_stock = false)).map (fun s =>
              { item := s.name,
                quantity := strip (s.quantity ++ [' '] ++ (s.unit.getD [])),
                notes := str "Staple item" }))]
      ∧ (ShoppingListOptimizer._fallback_organization raw staples).shopping_tips
        = [str "AI optimization unavailable - using basic categorization"]
      ∧ (ShoppingListOptimizer._fallback_organization raw staples).total_items
        = raw.length
            + (staples.filter (fun s => s.in_stock = false)).length := by
  intro raw staples e
  exact ⟨rfl, rfl, rfl, rfl⟩
